import Mathlib

/- Verification of the OpenShift Origin master control-plane assembly
   (pkg/api/latest and the origin server package): version registry,
   REST mapping registration, authorization filter, policy bootstrap,
   protected-API installation and the post-bind readiness probe. -/

/-! ## Version registry (pkg/api/latest/latest.go, package latest) -/

/-- Versions is the list of versions that are recognized in code. -/
def Versions : List String := ["v1beta1"]

/-- Opaque reference to the codec collaborator of a version. -/
inductive CodecRef
  | v1beta1Codec
deriving DecidableEq, Repr

/-- Opaque reference to the object-converter collaborator (api.Scheme). -/
inductive ConvertorRef
  | schemeConvertor
deriving DecidableEq, Repr

/-- Opaque reference to the shared static metadata accessor. -/
inductive AccessorRef
  | accessor
deriving DecidableEq, Repr

/-- kmeta.VersionInterfaces: the codec, object converter and metadata
accessor bundle of one API version. -/
structure VersionInterfaces where
  codec : CodecRef
  objectConvertor : ConvertorRef
  metadataAccessor : AccessorRef
deriving DecidableEq, Repr

/-- InterfacesFor returns the default codec, converter and accessor for a
given version string, or an error if the version is not known. The Go
switch over the version string has the single case "v1beta1". -/
def InterfacesFor (version : String) : Except String VersionInterfaces :=
  if version = "v1beta1" then
    Except.ok { codec := CodecRef.v1beta1Codec, objectConvertor := ConvertorRef.schemeConvertor,
                metadataAccessor := AccessorRef.accessor }
  else
    Except.error ("unsupported storage version: " ++ version ++ " (valid: " ++
      String.intercalate ", " Versions ++ ")")

/-- kmeta.RESTScope values used during registration. -/
inductive RESTScope
  | root
  | namespaced
  | namespaceLegacy
deriving DecidableEq, Repr

/-- One mapping registered on the origin REST mapper by
originMapper.Add(scope, kind, version, mixedCase). The scope is an Option
mirroring the Go interface value, which is nil when the version is absent
from versionToNamespaceScope and no root-scope override applies. -/
structure Mapping where
  scope : Option RESTScope
  kind : String
  version : String
  mixedCase : Bool
deriving DecidableEq, Repr

/-- versions that used mixed case URL formats. -/
def versionMixedCase : List (String × Bool) := [("v1beta1", true)]

/-- backwards compatibility: prior to v1beta2 the namespace was identified
as a query parameter. -/
def versionToNamespaceScope : List (String × RESTScope) :=
  [("v1beta1", RESTScope.namespaceLegacy)]

/-- the list of kinds that are scoped at the root of the api hierarchy;
a kind not enumerated here is assumed to have a namespace scope. -/
def kindToRootScope : List (String × Bool) :=
  [("Project", true),
   ("User", true), ("Identity", true), ("UserIdentityMapping", true),
   ("OAuthAccessToken", true), ("OAuthAuthorizeToken", true),
   ("OAuthClient", true), ("OAuthClientAuthorization", true)]

/-- Body of the registration loop of init in package latest: the mapping
registered for one (version, kind) pair. -/
def registeredMapping (version kind : String) : Mapping :=
  let mixedCase := (versionMixedCase.lookup version).getD false
  let scope0 := versionToNamespaceScope.lookup version
  let scope := if (kindToRootScope.lookup kind).isSome then some RESTScope.root else scope0
  { scope := scope, kind := kind, version := version, mixedCase := mixedCase }

/-- The full registration loop of init: enumerate all supported versions,
get the kinds known to the active schema, and register each with the
mapper. `knownTypes` abstracts api.Scheme.KnownTypes. -/
def registerAll (knownTypes : String → List String) : List Mapping :=
  Versions.flatMap (fun version => (knownTypes version).map (fun kind => registeredMapping version kind))

/-! ## HTTP requests and the forbidden response (origin server package) -/

/-- The parts of an http.Request the embedded handlers inspect. `id`
identifies the in-flight request for the RequestContextMap. -/
structure Request where
  id : Nat
  method : String
  requestURI : String
deriving DecidableEq, Repr

/-- An HTTP response: status code and body as written to the ResponseWriter. -/
structure Response where
  status : Nat
  body : String
deriving DecidableEq, Repr

/-- Go fmt's %q verb on a string. The request URIs this server quotes are
printable ASCII without quote or backslash characters, for which %q is
plain quote wrapping. -/
def goQuote (s : String) : String := "\"" ++ s ++ "\""

/-- forbidden renders a simple forbidden error: status 403 and the body
written by fmt.Fprintf(w, "Forbidden: %q %s", req.RequestURI, reason). -/
def forbidden (reason : String) (req : Request) : Response :=
  { status := 403, body := "Forbidden: " ++ goQuote req.requestURI ++ " " ++ reason }

/-! ## Protected-API installation: the current-user route scan -/

/-- OpenShiftAPIPrefix constant. -/
def osapiBase : String := "/osapi"

/-- OpenShiftAPIPrefixV1Beta1 constant. -/
def osapiV1Beta1 : String := osapiBase ++ "/v1beta1"

/-- A registered restful route: method, path and its filter chain
(filters recorded by name). -/
structure Route where
  method : String
  path : String
  filters : List String
deriving DecidableEq, Repr

/-- A registered restful web service: root path and routes. -/
structure WebService where
  rootPath : String
  routes : List Route
deriving DecidableEq, Repr

/-- The current-user route path matched by InstallProtectedAPI. -/
def userRoutePath : String := osapiV1Beta1 ++ "/users/{name}"

/-- The route predicate of the scan loop: GET on the users/{name} path. -/
def isUserRoute (r : Route) : Bool := r.method == "GET" && r.path == userRoutePath

/-- Appending the current-user context filter to a matching route. -/
def injectFilter (r : Route) : Route :=
  if isUserRoute r then { r with filters := r.filters ++ ["currentUserContextFilter"] } else r

/-- One iteration of the scan over container.RegisteredWebServices(): on the
service rooted at the versioned API root, inject the filter into every
matching route and count the matches; other services are untouched. -/
def scanService (svc : WebService) : WebService × Nat :=
  if svc.rootPath == osapiV1Beta1 then
    ({ svc with routes := svc.routes.map injectFilter }, (svc.routes.filter isUserRoute).length)
  else (svc, 0)

/-- The total userRoutesChanged counter accumulated by the scan. -/
def countUserRoutes (svcs : List WebService) : Nat :=
  ((svcs.map scanService).map (fun p => p.2)).sum

/-- The route-scan portion of InstallProtectedAPI: inject the current-user
filter, then glog.Fatalf (modelled as Except.error, the process exits and
the server never starts) unless exactly one route was changed. -/
def installUserFilter (svcs : List WebService) : Except String (List WebService) :=
  if countUserRoutes svcs ≠ 1 then
    Except.error "Could not find user route to install the current user filter."
  else
    Except.ok ((svcs.map scanService).map (fun p => p.1))

/-! ## The authorization filter and handler composition -/

/-- An acting user identity. -/
abbrev User := String

/-- The RequestContextMap: in-flight request id to resolved acting user. -/
abbrev CtxMap := List (Nat × User)

/-- Observable events of one request's passage through the handler chain. -/
inductive Event
  | authenticated (u : User)
  | calledAuthorizer
  | servedInner
  | wroteForbidden (reason : String)
deriving DecidableEq, Repr

/-- Errors of the attribute builder: the distinguished
authorizer.ErrNoStandardParts, or any other error with its message. -/
inductive AttrErr
  | noStandardParts
  | other (msg : String)
deriving DecidableEq, Repr

/-- Authorization attributes derived from a request. -/
structure Attributes where
  user : Option User
  verb : String
  resource : String
  namespc : String
deriving DecidableEq, Repr

/-- The collaborators of the authorization filter: the attribute builder's
GetAttributes (returning a Go-style value and error pair, reading the
RequestContextMap) and the authorizer's Authorize (returning allowed,
reason and error). -/
structure AuthzDeps where
  getAttributes : Request → CtxMap → Option Attributes × Option AttrErr
  authorize : Attributes → Except String (Bool × String)

/-- An http.Handler: consumes a request and the current RequestContextMap,
produces the response and the event trace of everything it did. -/
abbrev Handler := Request → CtxMap → Response × List Event

/-- authorizationFilter, the per-request decision procedure of the origin
server: builder error NoStandardParts allows and forwards; any other
builder error is forbidden; nil attributes with nil error is forbidden
with reason "No attributes"; otherwise the authorizer decides. -/
def authorizationFilter (deps : AuthzDeps) (handler : Handler) : Handler :=
  fun req ctx =>
    match deps.getAttributes req ctx with
    | (_, some AttrErr.noStandardParts) =>
        let r := handler req ctx
        (r.1, Event.servedInner :: r.2)
    | (_, some (AttrErr.other msg)) =>
        (forbidden msg req, [Event.wroteForbidden msg])
    | (none, none) =>
        (forbidden "No attributes" req, [Event.wroteForbidden "No attributes"])
    | (some attrs, none) =>
        match deps.authorize attrs with
        | Except.error msg =>
            (forbidden msg req, [Event.calledAuthorizer, Event.wroteForbidden msg])
        | Except.ok (allowed, reason) =>
            if allowed then
              let r := handler req ctx
              (r.1, Event.calledAuthorizer :: Event.servedInner :: r.2)
            else
              (forbidden reason req, [Event.calledAuthorizer, Event.wroteForbidden reason])

/-- RequestContextMap lookup of the acting user for a request. -/
def lookupUser (ctx : CtxMap) (id : Nat) : Option User :=
  (ctx.find? (fun e => e.1 == id)).map (fun e => e.2)

/-- The resource parts recognized by the REST path grammar. -/
structure PathParts where
  verb : String
  resource : String
  namespc : String
deriving DecidableEq, Repr

/-- Modelled from the spec: the authorization attribute builder
(authorizer.NewAuthorizationAttributeBuilder, not under src/) parses the
REST path grammar into attributes, emits the distinguished NoStandardParts
failure when the path does not conform, and reads the acting user from the
RequestContextMap. `parse` abstracts the path grammar. -/
def builderGetAttributes (parse : Request → Option PathParts) :
    Request → CtxMap → Option Attributes × Option AttrErr :=
  fun req ctx =>
    match parse req with
    | none => (none, some AttrErr.noStandardParts)
    | some parts =>
        (some { user := lookupUser ctx req.id, verb := parts.verb,
                resource := parts.resource, namespc := parts.namespc }, none)

/-- Modelled from the spec: authenticationHandlerFilter (not under src/)
authenticates the request, records the resolved user in the
RequestContextMap for the duration of the request, and only then invokes
the inner handler; an unauthenticated request is rejected. -/
def authenticationHandlerFilter (handler : Handler) (auth : Request → Option User) : Handler :=
  fun req ctx =>
    match auth req with
    | some u =>
        let r := handler req ((req.id, u) :: ctx)
        (r.1, Event.authenticated u :: r.2)
    | none => ({ status := 401, body := "Unauthorized" }, [])

/-- The protected-surface handler composed by Run:
handler := authorizationFilter(safe); handler = authenticationHandlerFilter(handler, ...);
so authentication wraps authorization, which wraps the protected container. -/
def composedProtectedHandler (deps : AuthzDeps) (auth : Request → Option User)
    (container : Handler) : Handler :=
  authenticationHandlerFilter (authorizationFilter deps container) auth

/-! ## Policy bootstrap (ensureComponentAuthorizationRules) -/

/-- A persisted Policy in the master authorization namespace. -/
structure Policy where
  name : String
deriving DecidableEq, Repr

/-- A persisted PolicyBinding in the master authorization namespace. -/
structure PolicyBinding where
  name : String
deriving DecidableEq, Repr

/-- The slice of the policy store touched by bootstrap: the Policy and
PolicyBinding objects of the master authorization namespace. -/
structure Store where
  policies : List Policy
  policyBindings : List PolicyBinding
deriving DecidableEq, Repr

/-- The store calls issued by bootstrap, recorded for call counting. -/
inductive StoreOp
  | getPolicy (name : String)
  | createPolicy (name : String)
  | getPolicyBinding (name : String)
  | createPolicyBinding (name : String)
deriving DecidableEq, Repr

/-- The well-known identifier naming the global Policy
(authorizationapi.PolicyName). -/
def policyName : String := "default"

/-- Bool test that a string has " not found" as a substring, as tested by
strings.Contains(err.Error(), " not found"). -/
def containsNotFound (m : String) : Bool :=
  decide ((" not found").toList <:+: m.toList)

/-- The bootstrap branch condition: err == nil or the error text contains
" not found". -/
def errNilOrNotFound (e : Option String) : Bool :=
  match e with
  | none => true
  | some m => containsNotFound m

/-- Modelled from the spec: the Policy Store contract (the etcd-backed
registry is not under src/): GetPolicy returns the policy of that name or
a not-found error whose text contains " not found". -/
def storeGetPolicy (s : Store) (name : String) : Option Policy × Option String :=
  match s.policies.find? (fun p => p.name == name) with
  | some p => (some p, none)
  | none => (none, some ("policy " ++ goQuote name ++ " not found"))

/-- Modelled from the spec: GetPolicyBinding of the Policy Store contract
(the etcd-backed registry is not under src/). -/
def storeGetPolicyBinding (s : Store) (name : String) : Option PolicyBinding × Option String :=
  match s.policyBindings.find? (fun b => b.name == name) with
  | some b => (some b, none)
  | none => (none, some ("policyBinding " ++ goQuote name ++ " not found"))

/-- Modelled from the spec: CreatePolicy of the Policy Store contract. -/
def storeCreatePolicy (s : Store) (p : Policy) : Store :=
  { s with policies := s.policies ++ [p] }

/-- Modelled from the spec: CreatePolicyBinding of the Policy Store contract. -/
def storeCreatePolicyBinding (s : Store) (b : PolicyBinding) : Store :=
  { s with policyBindings := s.policyBindings ++ [b] }

/-- Modelled from the spec: authorizer.GetBootstrapPolicy (not under src/)
returns the bootstrap default global Policy, named by the well-known
identifier. -/
def bootstrapPolicy (_ns : String) : Policy := { name := policyName }

/-- Modelled from the spec: authorizer.GetBootstrapPolicyBinding (not under
src/) returns the bootstrap default global PolicyBinding, named by the
master authorization namespace. -/
def bootstrapPolicyBinding (ns : String) : PolicyBinding := { name := ns }

/-- The PolicyBinding half of ensureComponentAuthorizationRules, reached
only when the Policy half did not return early; creation failures are only
logged, so the created state is returned either way. -/
def ensureBindingPart (ns : String) (s : Store) (ops : List StoreOp) : Store × List StoreOp :=
  let g := storeGetPolicyBinding s ns
  let ops2 := ops ++ [StoreOp.getPolicyBinding ns]
  if errNilOrNotFound g.2 then
    if (match g.1 with | some b => b.name == ns | none => false) then (s, ops2)
    else
      (storeCreatePolicyBinding s (bootstrapPolicyBinding ns),
       ops2 ++ [StoreOp.createPolicyBinding ns])
  else (s, ops2)

/-- ensureComponentAuthorizationRules initializes the global policies:
get the Policy named by the well-known identifier; if it already exists
under that name, return early (skipping the PolicyBinding block entirely);
otherwise create the bootstrap Policy and continue to the PolicyBinding
block. Alongside the resulting store, the list of store calls is returned. -/
def ensureComponentAuthorizationRules (ns : String) (s : Store) : Store × List StoreOp :=
  let g := storeGetPolicy s policyName
  let ops := [StoreOp.getPolicy policyName]
  if errNilOrNotFound g.2 then
    if (match g.1 with | some p => p.name == policyName | none => false) then (s, ops)
    else
      ensureBindingPart ns (storeCreatePolicy s (bootstrapPolicy ns))
        (ops ++ [StoreOp.createPolicy policyName])
  else ensureBindingPart ns s ops

/-- Whether the global Policy exists under the expected name. -/
def policyPresent (s : Store) : Bool := s.policies.any (fun p => p.name == policyName)

/-- Whether the global PolicyBinding exists under the master namespace name. -/
def bindingPresent (ns : String) (s : Store) : Bool :=
  s.policyBindings.any (fun b => b.name == ns)

/-- Number of CreatePolicy calls in a store-call trace. -/
def createPolicyCount (ops : List StoreOp) : Nat :=
  (ops.filter (fun op => match op with | StoreOp.createPolicy _ => true | _ => false)).length

/-- Number of CreatePolicyBinding calls in a store-call trace. -/
def createBindingCount (ops : List StoreOp) : Nat :=
  (ops.filter (fun op => match op with | StoreOp.createPolicyBinding _ => true | _ => false)).length

/-! ## Post-bind readiness probe -/

/-- Modelled from the spec: cmdutil.WaitForSuccessfulDial (not under src/)
makes up to `tries` connection attempts against the bound address, each
bounded by the per-attempt timeout `timeoutMs`, and returns as soon as one
succeeds or the attempt budget is exhausted. `dial k` says whether attempt
number `k` connects; each attempt is charged its full per-attempt timeout,
the worst case. Returns (success, elapsed milliseconds). -/
def waitForSuccessfulDial (dial : Nat → Bool) (timeoutMs : Nat) : Nat → Nat → Bool × Nat
  | 0, _ => (false, 0)
  | tries + 1, attempt =>
    if dial attempt then (true, timeoutMs)
    else
      let rest := waitForSuccessfulDial dial timeoutMs tries (attempt + 1)
      (rest.1, timeoutMs + rest.2)

/-- The readiness probe call made synchronously by Run after binding the
listener: 100 tries with a 100ms per-attempt timeout. -/
def runReadinessProbe (dial : Nat → Bool) : Bool × Nat :=
  waitForSuccessfulDial dial 100 100 0
/-! ## Claims -/

/-- C7: for every version string that is not a known version, InterfacesFor
fails with an error enumerating every known version joined by ", "; for the
known version string it succeeds with the version's codec, object converter
and metadata accessor. -/
theorem c7_interfacesFor_resolution (version : String) :
    (version ∉ Versions →
      InterfacesFor version =
        Except.error ("unsupported storage version: " ++ version ++
          " (valid: " ++ String.intercalate ", " Versions ++ ")")) ∧
    InterfacesFor "v1beta1" =
      Except.ok { codec := CodecRef.v1beta1Codec, objectConvertor := ConvertorRef.schemeConvertor,
                  metadataAccessor := AccessorRef.accessor } := by
  constructor
  · intro h
    have hne : ¬ version = "v1beta1" := by
      simpa [Versions] using h
    simp [InterfacesFor, hne]
  · rfl

/-- C7 witness: concrete evaluation at the unknown version "unknown". -/
theorem c7_interfacesFor_resolution_witness :
    InterfacesFor "unknown" =
      Except.error "unsupported storage version: unknown (valid: v1beta1)" := by
  have h := (c7_interfacesFor_resolution "unknown").1 (by decide)
  exact h.trans (by rfl)

/-- C6: at startup registration over the active schema, a kind in the
explicit root-scope allow-set is registered with Root scope, and every
other kind for the legacy version v1beta1 is registered with
NamespaceLegacy scope and mixedCase true; in particular Project resolves
to Root and Build to NamespaceLegacy with mixedCase true; every kind known
to the schema for v1beta1 produces its mapping in the registration run. -/
theorem c6_scope_registration (kind : String) (knownTypes : String → List String) :
    ((kindToRootScope.lookup kind).isSome = true →
      registeredMapping "v1beta1" kind =
        { scope := some RESTScope.root, kind := kind, version := "v1beta1", mixedCase := true }) ∧
    ((kindToRootScope.lookup kind).isSome = false →
      registeredMapping "v1beta1" kind =
        { scope := some RESTScope.namespaceLegacy, kind := kind, version := "v1beta1",
          mixedCase := true }) ∧
    registeredMapping "v1beta1" "Project" =
      { scope := some RESTScope.root, kind := "Project", version := "v1beta1", mixedCase := true } ∧
    registeredMapping "v1beta1" "Build" =
      { scope := some RESTScope.namespaceLegacy, kind := "Build", version := "v1beta1",
        mixedCase := true } ∧
    (kind ∈ knownTypes "v1beta1" → registeredMapping "v1beta1" kind ∈ registerAll knownTypes) := by
  refine ⟨?_, ?_, by decide, by decide, ?_⟩
  · intro h
    simp [registeredMapping, versionMixedCase, versionToNamespaceScope, h]
  · intro h
    simp [registeredMapping, versionMixedCase, versionToNamespaceScope, h]
  · intro h
    simp only [registerAll, Versions, List.flatMap_cons, List.flatMap_nil, List.append_nil,
      List.mem_map]
    exact ⟨kind, h, rfl⟩

/-- C6 witness: the Project and Build lookups at a concrete schema. -/
theorem c6_scope_registration_witness :
    (kindToRootScope.lookup "Project").isSome = true ∧
    registeredMapping "v1beta1" "Project" =
      { scope := some RESTScope.root, kind := "Project", version := "v1beta1",
        mixedCase := true } ∧
    registeredMapping "v1beta1" "Build" ∈ registerAll (fun _ => ["Build"]) := by
  refine ⟨by decide, ?_, ?_⟩
  · exact (c6_scope_registration "Project" (fun _ => ["Build"])).1 (by decide)
  · exact (c6_scope_registration "Build" (fun _ => ["Build"])).2.2.2.2 (by decide)

/-- C4: during protected-API installation, if the number of GET routes on
the current-user path across the v1beta1-rooted services is not exactly 1,
startup is fatal; if it is exactly 1, the current-user filter is injected
and startup proceeds. -/
theorem c4_install_user_filter (svcs : List WebService) :
    (countUserRoutes svcs ≠ 1 →
      installUserFilter svcs =
        Except.error "Could not find user route to install the current user filter.") ∧
    (countUserRoutes svcs = 1 →
      installUserFilter svcs = Except.ok ((svcs.map scanService).map (fun p => p.1))) ∧
    (∀ r : Route, isUserRoute r = true →
      (injectFilter r).filters = r.filters ++ ["currentUserContextFilter"]) := by
  refine ⟨?_, ?_, ?_⟩
  · intro h; simp [installUserFilter, h]
  · intro h; simp [installUserFilter, h]
  · intro r h; simp [injectFilter, h]

/-- C4 witness: one service with exactly one matching route starts cleanly
with the filter injected; with zero matching routes startup is fatal. -/
theorem c4_install_user_filter_witness :
    countUserRoutes [⟨osapiV1Beta1, [⟨"GET", userRoutePath, []⟩]⟩] = 1 ∧
    installUserFilter [⟨osapiV1Beta1, [⟨"GET", userRoutePath, []⟩]⟩] =
      Except.ok [⟨osapiV1Beta1, [⟨"GET", userRoutePath, ["currentUserContextFilter"]⟩]⟩] ∧
    installUserFilter [⟨osapiV1Beta1, []⟩] =
      Except.error "Could not find user route to install the current user filter." := by
  refine ⟨by decide, ?_, ?_⟩
  · have h := (c4_install_user_filter [⟨osapiV1Beta1, [⟨"GET", userRoutePath, []⟩]⟩]).2.1
      (by decide)
    exact h.trans (by rfl)
  · exact (c4_install_user_filter [⟨osapiV1Beta1, []⟩]).1 (by decide)
/-- Helper: the elapsed time of the dial loop never exceeds
tries * timeoutMs. -/
theorem waitDial_elapsed_le (dial : Nat → Bool) (timeoutMs : Nat) :
    ∀ tries attempt, (waitForSuccessfulDial dial timeoutMs tries attempt).2 ≤ tries * timeoutMs := by
  intro tries
  induction tries with
  | zero => intro attempt; simp [waitForSuccessfulDial]
  | succ n ih =>
    intro attempt
    by_cases h : dial attempt
    · simp [waitForSuccessfulDial, h, Nat.succ_mul]
    · simp [waitForSuccessfulDial, h, Nat.succ_mul]
      have := ih (attempt + 1)
      calc timeoutMs + (waitForSuccessfulDial dial timeoutMs n (attempt + 1)).2
          ≤ timeoutMs + n * timeoutMs := Nat.add_le_add_left this timeoutMs
        _ = n * timeoutMs + timeoutMs := Nat.add_comm _ _

/-- Helper: against an address with no listener, every attempt fails, the
budget is exhausted, and the elapsed time is exactly tries * timeoutMs. -/
theorem waitDial_all_fail (timeoutMs : Nat) :
    ∀ tries attempt,
      waitForSuccessfulDial (fun _ => false) timeoutMs tries attempt =
        (false, tries * timeoutMs) := by
  intro tries
  induction tries with
  | zero => intro attempt; simp [waitForSuccessfulDial]
  | succ n ih =>
    intro attempt
    simp [waitForSuccessfulDial, ih (attempt + 1), Nat.succ_mul, Nat.add_comm]

/-- C8: the post-bind readiness probe is bounded: its elapsed time never
exceeds the attempt budget times the per-attempt timeout, against an
address with no listener it exhausts the budget and returns failure in
exactly tries * timeoutMs, and the concrete probe made by Run (100 tries,
100ms per attempt) returns failure within 10000 ms. -/
theorem c8_readiness_probe_bounded (dial : Nat → Bool) (timeoutMs tries attempt : Nat) :
    (waitForSuccessfulDial dial timeoutMs tries attempt).2 ≤ tries * timeoutMs ∧
    waitForSuccessfulDial (fun _ => false) timeoutMs tries attempt = (false, tries * timeoutMs) ∧
    runReadinessProbe (fun _ => false) = (false, 10000) := by
  refine ⟨waitDial_elapsed_le dial timeoutMs tries attempt,
          waitDial_all_fail timeoutMs tries attempt, ?_⟩
  have h := waitDial_all_fail 100 100 0
  simpa [runReadinessProbe] using h

/-- C1: the authorization filter follows the spec's decision procedure in
order: a NoStandardParts builder error allows and forwards to the inner
handler; any other builder error is a 403 denial; otherwise, when
attributes were built, the authorizer is consulted, an authorizer error or
a not-allowed verdict is a 403 denial, and an allowed verdict forwards the
request to the inner handler unchanged. -/
theorem c1_filter_decision (deps : AuthzDeps) (inner : Handler) (req : Request) (ctx : CtxMap) :
    (∀ a, deps.getAttributes req ctx = (a, some AttrErr.noStandardParts) →
      authorizationFilter deps inner req ctx =
        ((inner req ctx).1, Event.servedInner :: (inner req ctx).2)) ∧
    (∀ a msg, deps.getAttributes req ctx = (a, some (AttrErr.other msg)) →
      authorizationFilter deps inner req ctx = (forbidden msg req, [Event.wroteForbidden msg])) ∧
    (∀ attrs msg, deps.getAttributes req ctx = (some attrs, none) →
      deps.authorize attrs = Except.error msg →
      authorizationFilter deps inner req ctx =
        (forbidden msg req, [Event.calledAuthorizer, Event.wroteForbidden msg])) ∧
    (∀ attrs reason, deps.getAttributes req ctx = (some attrs, none) →
      deps.authorize attrs = Except.ok (false, reason) →
      authorizationFilter deps inner req ctx =
        (forbidden reason req, [Event.calledAuthorizer, Event.wroteForbidden reason])) ∧
    (∀ attrs reason, deps.getAttributes req ctx = (some attrs, none) →
      deps.authorize attrs = Except.ok (true, reason) →
      authorizationFilter deps inner req ctx =
        ((inner req ctx).1, Event.calledAuthorizer :: Event.servedInner :: (inner req ctx).2)) := by
  refine ⟨?_, ?_, ?_, ?_, ?_⟩
  · intro a h; simp [authorizationFilter, h]
  · intro a msg h; simp [authorizationFilter, h]
  · intro attrs msg h ha; simp [authorizationFilter, h, ha]
  · intro attrs reason h ha; simp [authorizationFilter, h, ha]
  · intro attrs reason h ha; simp [authorizationFilter, h, ha]

/-- C1 witness: a request whose path has no standard parts is forwarded to
the inner handler without a 403, with concrete collaborators. -/
theorem c1_filter_decision_witness :
    authorizationFilter
        { getAttributes := fun _ _ => (none, some AttrErr.noStandardParts),
          authorize := fun _ => Except.ok (true, "") }
        (fun _ _ => ({ status := 200, body := "ok" }, []))
        { id := 0, method := "GET", requestURI := "/healthz" } [] =
      ({ status := 200, body := "ok" }, [Event.servedInner]) := by
  have h := (c1_filter_decision
      { getAttributes := fun _ _ => (none, some AttrErr.noStandardParts),
        authorize := fun _ => Except.ok (true, "") }
      (fun _ _ => ({ status := 200, body := "ok" }, []))
      { id := 0, method := "GET", requestURI := "/healthz" } []).1 none rfl
  exact h.trans rfl

/-- C10: a request whose attribute builder returns nil attributes together
with a nil error is denied with 403 and reason "No attributes", and the
filter never invokes the inner handler or the authorizer. -/
theorem c10_nil_attributes_denied (deps : AuthzDeps) (inner : Handler) (req : Request)
    (ctx : CtxMap) :
    deps.getAttributes req ctx = (none, none) →
    authorizationFilter deps inner req ctx =
      (forbidden "No attributes" req, [Event.wroteForbidden "No attributes"]) ∧
    (authorizationFilter deps inner req ctx).1.status = 403 ∧
    Event.servedInner ∉ (authorizationFilter deps inner req ctx).2 ∧
    Event.calledAuthorizer ∉ (authorizationFilter deps inner req ctx).2 := by
  intro h
  refine ⟨?_, ?_, ?_, ?_⟩ <;> simp [authorizationFilter, h, forbidden]

/-- C10 witness: concrete collaborators whose builder returns nil
attributes and nil error. -/
theorem c10_nil_attributes_denied_witness :
    authorizationFilter
        { getAttributes := fun _ _ => (none, none),
          authorize := fun _ => Except.ok (true, "") }
        (fun _ _ => ({ status := 200, body := "ok" }, []))
        { id := 0, method := "GET", requestURI := "/osapi/v1beta1/builds" } [] =
      (forbidden "No attributes" { id := 0, method := "GET", requestURI := "/osapi/v1beta1/builds" },
       [Event.wroteForbidden "No attributes"]) := by
  exact (c10_nil_attributes_denied
      { getAttributes := fun _ _ => (none, none),
        authorize := fun _ => Except.ok (true, "") }
      (fun _ _ => ({ status := 200, body := "ok" }, []))
      { id := 0, method := "GET", requestURI := "/osapi/v1beta1/builds" } [] rfl).1
/-- Helper: the forbidden body contains the request URI as a substring. -/
theorem forbidden_body_has_uri (reason : String) (req : Request) :
    req.requestURI.toList <:+: (forbidden reason req).body.toList := by
  refine ⟨("Forbidden: " ++ "\"").toList, ("\"" ++ " " ++ reason).toList, ?_⟩
  simp [forbidden, goQuote, String.toList, String.data_append, List.append_assoc]

/-- Helper: the forbidden body contains the denial reason as a substring. -/
theorem forbidden_body_has_reason (reason : String) (req : Request) :
    reason.toList <:+: (forbidden reason req).body.toList := by
  refine ⟨("Forbidden: " ++ goQuote req.requestURI ++ " ").toList, [], ?_⟩
  simp [forbidden, goQuote, String.toList, String.data_append, List.append_assoc]

/-- Helper packaging the denial facts of C2 from the response equation and
the trace membership. -/
theorem denial_pack (deps : AuthzDeps) (inner : Handler) (req : Request) (ctx : CtxMap)
    (reason : String)
    (h1 : (authorizationFilter deps inner req ctx).1 = forbidden reason req)
    (h2 : Event.wroteForbidden reason ∈ (authorizationFilter deps inner req ctx).2) :
    ∃ r,
      (authorizationFilter deps inner req ctx).1 = forbidden r req ∧
      (authorizationFilter deps inner req ctx).1.status = 403 ∧
      req.requestURI.toList <:+: (authorizationFilter deps inner req ctx).1.body.toList ∧
      r.toList <:+: (authorizationFilter deps inner req ctx).1.body.toList ∧
      Event.wroteForbidden r ∈ (authorizationFilter deps inner req ctx).2 := by
  refine ⟨reason, h1, ?_, ?_, ?_, h2⟩
  · rw [h1]; rfl
  · rw [h1]; exact forbidden_body_has_uri reason req
  · rw [h1]; exact forbidden_body_has_reason reason req

/-- C2: every request the authorization filter denies (it never reaches the
inner handler) receives the forbidden response: HTTP status exactly 403
with a body containing both the request URI and the textual reason for the
denial, the reason recorded by the filter. -/
theorem c2_denial_response (deps : AuthzDeps) (inner : Handler) (req : Request) (ctx : CtxMap) :
    Event.servedInner ∉ (authorizationFilter deps inner req ctx).2 →
    ∃ reason,
      (authorizationFilter deps inner req ctx).1 = forbidden reason req ∧
      (authorizationFilter deps inner req ctx).1.status = 403 ∧
      req.requestURI.toList <:+: (authorizationFilter deps inner req ctx).1.body.toList ∧
      reason.toList <:+: (authorizationFilter deps inner req ctx).1.body.toList ∧
      Event.wroteForbidden reason ∈ (authorizationFilter deps inner req ctx).2 := by
  intro hns
  rcases hg : deps.getAttributes req ctx with ⟨a, e⟩
  rcases e with _ | err
  · rcases a with _ | attrs
    · exact denial_pack deps inner req ctx "No attributes"
        (by simp [authorizationFilter, hg]) (by simp [authorizationFilter, hg])
    · rcases ha : deps.authorize attrs with msg | pair
      · exact denial_pack deps inner req ctx msg
          (by simp [authorizationFilter, hg, ha]) (by simp [authorizationFilter, hg, ha])
      · rcases pair with ⟨allowed, reason⟩
        rcases allowed with _ | _
        · exact denial_pack deps inner req ctx reason
            (by simp [authorizationFilter, hg, ha]) (by simp [authorizationFilter, hg, ha])
        · exfalso
          apply hns
          simp [authorizationFilter, hg, ha]
  · rcases err with _ | msg
    · exfalso
      apply hns
      simp [authorizationFilter, hg]
    · exact denial_pack deps inner req ctx msg
        (by simp [authorizationFilter, hg]) (by simp [authorizationFilter, hg])

/-- C2 witness: a request denied by the authorizer with reason "denied by
policy" receives the 403 forbidden response containing URI and reason. -/
theorem c2_denial_response_witness :
    Event.servedInner ∉
      (authorizationFilter
        { getAttributes := fun _ _ =>
            (some { user := some "bob", verb := "get", resource := "builds", namespc := "ns1" },
             none),
          authorize := fun _ => Except.ok (false, "denied by policy") }
        (fun _ _ => ({ status := 200, body := "ok" }, []))
        { id := 3, method := "GET", requestURI := "/osapi/v1beta1/builds" } []).2 ∧
    ∃ reason,
      (authorizationFilter
        { getAttributes := fun _ _ =>
            (some { user := some "bob", verb := "get", resource := "builds", namespc := "ns1" },
             none),
          authorize := fun _ => Except.ok (false, "denied by policy") }
        (fun _ _ => ({ status := 200, body := "ok" }, []))
        { id := 3, method := "GET", requestURI := "/osapi/v1beta1/builds" } []).1 =
          forbidden reason { id := 3, method := "GET", requestURI := "/osapi/v1beta1/builds" } ∧
      (authorizationFilter
        { getAttributes := fun _ _ =>
            (some { user := some "bob", verb := "get", resource := "builds", namespc := "ns1" },
             none),
          authorize := fun _ => Except.ok (false, "denied by policy") }
        (fun _ _ => ({ status := 200, body := "ok" }, []))
        { id := 3, method := "GET", requestURI := "/osapi/v1beta1/builds" } []).1.status = 403 ∧
      "/osapi/v1beta1/builds".toList <:+:
        (authorizationFilter
          { getAttributes := fun _ _ =>
              (some { user := some "bob", verb := "get", resource := "builds", namespc := "ns1" },
               none),
            authorize := fun _ => Except.ok (false, "denied by policy") }
          (fun _ _ => ({ status := 200, body := "ok" }, []))
          { id := 3, method := "GET", requestURI := "/osapi/v1beta1/builds" } []).1.body.toList ∧
      reason.toList <:+:
        (authorizationFilter
          { getAttributes := fun _ _ =>
              (some { user := some "bob", verb := "get", resource := "builds", namespc := "ns1" },
               none),
            authorize := fun _ => Except.ok (false, "denied by policy") }
          (fun _ _ => ({ status := 200, body := "ok" }, []))
          { id := 3, method := "GET", requestURI := "/osapi/v1beta1/builds" } []).1.body.toList ∧
      Event.wroteForbidden reason ∈
        (authorizationFilter
          { getAttributes := fun _ _ =>
              (some { user := some "bob", verb := "get", resource := "builds", namespc := "ns1" },
               none),
            authorize := fun _ => Except.ok (false, "denied by policy") }
          (fun _ _ => ({ status := 200, body := "ok" }, []))
          { id := 3, method := "GET", requestURI := "/osapi/v1beta1/builds" } []).2 := by
  constructor
  · decide
  · exact c2_denial_response
      { getAttributes := fun _ _ =>
          (some { user := some "bob", verb := "get", resource := "builds", namespc := "ns1" },
           none),
        authorize := fun _ => Except.ok (false, "denied by policy") }
      (fun _ _ => ({ status := 200, body := "ok" }, []))
      { id := 3, method := "GET", requestURI := "/osapi/v1beta1/builds" } [] (by decide)
/-- C5: for every protected request, authentication executes strictly before
authorization: the composed handler is authentication wrapping
authorization wrapping the protected container, the authenticated event is
recorded first, the RequestContextMap seen by the authorization stage
already holds the authenticated user, and the attribute builder reads that
user into the attributes it produces. -/
theorem c5_authentication_before_authorization
    (parse : Request → Option PathParts) (authz : Attributes → Except String (Bool × String))
    (container : Handler) (auth : Request → Option User) (req : Request) (ctx : CtxMap)
    (u : User) :
    auth req = some u →
    (composedProtectedHandler { getAttributes := builderGetAttributes parse, authorize := authz }
        auth container req ctx =
      ((authorizationFilter { getAttributes := builderGetAttributes parse, authorize := authz }
          container req ((req.id, u) :: ctx)).1,
       Event.authenticated u ::
         (authorizationFilter { getAttributes := builderGetAttributes parse, authorize := authz }
            container req ((req.id, u) :: ctx)).2)) ∧
    lookupUser ((req.id, u) :: ctx) req.id = some u ∧
    (∀ parts, parse req = some parts →
      builderGetAttributes parse req ((req.id, u) :: ctx) =
        (some { user := some u, verb := parts.verb, resource := parts.resource,
                namespc := parts.namespc }, none)) := by
  intro h
  refine ⟨?_, ?_, ?_⟩
  · simp [composedProtectedHandler, authenticationHandlerFilter, h]
  · simp [lookupUser]
  · intro parts hp
    simp [builderGetAttributes, hp, lookupUser]

/-- C5 witness: with concrete collaborators, the composed handler
authenticates alice, then consults the authorizer on attributes carrying
alice, then serves the inner handler. -/
theorem c5_authentication_before_authorization_witness :
    composedProtectedHandler
        { getAttributes :=
            builderGetAttributes (fun _ => some { verb := "get", resource := "users", namespc := "" }),
          authorize := fun _ => Except.ok (true, "") }
        (fun _ => some "alice")
        (fun _ _ => ({ status := 200, body := "ok" }, []))
        { id := 7, method := "GET", requestURI := "/osapi/v1beta1/users/~" } [] =
      ({ status := 200, body := "ok" },
       [Event.authenticated "alice", Event.calledAuthorizer, Event.servedInner]) ∧
    builderGetAttributes (fun _ => some { verb := "get", resource := "users", namespc := "" })
        { id := 7, method := "GET", requestURI := "/osapi/v1beta1/users/~" } [(7, "alice")] =
      (some { user := some "alice", verb := "get", resource := "users", namespc := "" }, none) := by
  have h := c5_authentication_before_authorization
      (fun _ => some { verb := "get", resource := "users", namespc := "" })
      (fun _ => Except.ok (true, ""))
      (fun _ _ => ({ status := 200, body := "ok" }, []))
      (fun _ => some "alice")
      { id := 7, method := "GET", requestURI := "/osapi/v1beta1/users/~" } [] "alice" rfl
  constructor
  · exact h.1.trans (by decide)
  · exact h.2.2 { verb := "get", resource := "users", namespc := "" } rfl
/-- Helper: when the global Policy already exists under the expected name,
bootstrap returns early after the single GetPolicy call, touching nothing. -/
theorem ensure_of_policyPresent (ns : String) (s : Store) (h : policyPresent s = true) :
    ensureComponentAuthorizationRules ns s = (s, [StoreOp.getPolicy policyName]) := by
  have hex : ∃ p ∈ s.policies, (p.name == policyName) = true := by
    simpa [policyPresent, List.any_eq_true] using h
  have hsome : (s.policies.find? (fun p => p.name == policyName)).isSome := by
    rw [List.find?_isSome]
    simpa using hex
  rcases Option.isSome_iff_exists.mp hsome with ⟨q, hq⟩
  have hname := List.find?_some hq
  simp [ensureComponentAuthorizationRules, storeGetPolicy, hq, errNilOrNotFound, hname]

/-- Helper: the PolicyBinding block never changes the stored policies. -/
theorem bindingPart_policies (ns : String) (s : Store) (ops : List StoreOp) :
    ((ensureBindingPart ns s ops).1).policies = s.policies := by
  simp only [ensureBindingPart]
  split
  · split
    · rfl
    · simp [storeCreatePolicyBinding]
  · rfl

/-- Helper: after one bootstrap run the global Policy is present. -/
theorem policyPresent_after (ns : String) (s : Store) :
    policyPresent (ensureComponentAuthorizationRules ns s).1 = true := by
  by_cases h : policyPresent s = true
  · rw [ensure_of_policyPresent ns s h]
    exact h
  · have hall : ∀ p ∈ s.policies, ¬ (p.name == policyName) = true := by
      have := eq_false_of_ne_true h
      simpa [policyPresent, List.any_eq_true] using this
    have hnone : s.policies.find? (fun p => p.name == policyName) = none := by
      rw [List.find?_eq_none]
      exact hall
    have hcnf : errNilOrNotFound (some ("policy " ++ goQuote policyName ++ " not found")) =
        true := by decide
    have hrun : ensureComponentAuthorizationRules ns s =
        ensureBindingPart ns (storeCreatePolicy s (bootstrapPolicy ns))
          ([StoreOp.getPolicy policyName] ++ [StoreOp.createPolicy policyName]) := by
      simp [ensureComponentAuthorizationRules, storeGetPolicy, hnone, hcnf]
    rw [hrun]
    simp only [policyPresent]
    rw [bindingPart_policies]
    simp [storeCreatePolicy, bootstrapPolicy]

/-- Helper: a single bootstrap run issues at most one CreatePolicy and at
most one CreatePolicyBinding call. -/
theorem run_creates_le_one (ns : String) (s : Store) :
    createPolicyCount (ensureComponentAuthorizationRules ns s).2 ≤ 1 ∧
    createBindingCount (ensureComponentAuthorizationRules ns s).2 ≤ 1 := by
  simp only [ensureComponentAuthorizationRules, ensureBindingPart]
  split_ifs <;> simp [createPolicyCount, createBindingCount]

/-- C3: bootstrap against a store already holding the global Policy and the
global PolicyBinding creates nothing and leaves the store unchanged, and
running bootstrap twice against the same store creates the global Policy
and the global PolicyBinding at most once each across both runs. -/
theorem c3_bootstrap_idempotent (ns : String) (s : Store) :
    (policyPresent s = true ∧ bindingPresent ns s = true →
      (ensureComponentAuthorizationRules ns s).1 = s ∧
      createPolicyCount (ensureComponentAuthorizationRules ns s).2 = 0 ∧
      createBindingCount (ensureComponentAuthorizationRules ns s).2 = 0) ∧
    createPolicyCount ((ensureComponentAuthorizationRules ns s).2 ++
      (ensureComponentAuthorizationRules ns (ensureComponentAuthorizationRules ns s).1).2) ≤ 1 ∧
    createBindingCount ((ensureComponentAuthorizationRules ns s).2 ++
      (ensureComponentAuthorizationRules ns (ensureComponentAuthorizationRules ns s).1).2) ≤ 1 := by
  have hsecond : ensureComponentAuthorizationRules ns (ensureComponentAuthorizationRules ns s).1 =
      ((ensureComponentAuthorizationRules ns s).1, [StoreOp.getPolicy policyName]) :=
    ensure_of_policyPresent ns (ensureComponentAuthorizationRules ns s).1
      (policyPresent_after ns s)
  refine ⟨?_, ?_, ?_⟩
  · intro hpb
    rw [ensure_of_policyPresent ns s hpb.1]
    exact ⟨rfl, by simp [createPolicyCount], by simp [createBindingCount]⟩
  · rw [hsecond]
    have h1 := (run_creates_le_one ns s).1
    simpa [createPolicyCount, List.filter_append] using h1
  · rw [hsecond]
    have h1 := (run_creates_le_one ns s).2
    simpa [createBindingCount, List.filter_append] using h1

/-- C3 witness: a store already holding both global objects is untouched by
bootstrap and incurs no create calls. -/
theorem c3_bootstrap_idempotent_witness :
    policyPresent { policies := [{ name := "default" }], policyBindings := [{ name := "master" }] } =
      true ∧
    (ensureComponentAuthorizationRules "master"
        { policies := [{ name := "default" }], policyBindings := [{ name := "master" }] }).1 =
      { policies := [{ name := "default" }], policyBindings := [{ name := "master" }] } ∧
    createPolicyCount (ensureComponentAuthorizationRules "master"
        { policies := [{ name := "default" }], policyBindings := [{ name := "master" }] }).2 = 0 ∧
    createBindingCount (ensureComponentAuthorizationRules "master"
        { policies := [{ name := "default" }], policyBindings := [{ name := "master" }] }).2 = 0 := by
  have h := (c3_bootstrap_idempotent "master"
      { policies := [{ name := "default" }], policyBindings := [{ name := "master" }] }).1
    ⟨by decide, by decide⟩
  exact ⟨by decide, h.1, h.2.1, h.2.2⟩

/-- C9: when the global Policy already exists under the expected name,
bootstrap returns immediately after the single GetPolicy call: it neither
reads nor creates the global PolicyBinding, the store is unchanged, and a
store with the Policy present but the PolicyBinding absent keeps the
PolicyBinding absent. -/
theorem c9_policy_present_skips_binding (ns : String) (s : Store) :
    policyPresent s = true →
    ensureComponentAuthorizationRules ns s = (s, [StoreOp.getPolicy policyName]) ∧
    StoreOp.getPolicyBinding ns ∉ (ensureComponentAuthorizationRules ns s).2 ∧
    StoreOp.createPolicyBinding ns ∉ (ensureComponentAuthorizationRules ns s).2 ∧
    (bindingPresent ns s = false →
      bindingPresent ns (ensureComponentAuthorizationRules ns s).1 = false) := by
  intro h
  have he := ensure_of_policyPresent ns s h
  refine ⟨he, ?_, ?_, ?_⟩ <;> simp [he]

/-- C9 witness: a store with the global Policy present and the global
PolicyBinding absent is left with the PolicyBinding still absent. -/
theorem c9_policy_present_skips_binding_witness :
    ensureComponentAuthorizationRules "master"
        { policies := [{ name := "default" }], policyBindings := [] } =
      ({ policies := [{ name := "default" }], policyBindings := [] },
       [StoreOp.getPolicy policyName]) ∧
    bindingPresent "master"
        (ensureComponentAuthorizationRules "master"
          { policies := [{ name := "default" }], policyBindings := [] }).1 = false := by
  have h := c9_policy_present_skips_binding "master"
      { policies := [{ name := "default" }], policyBindings := [] } (by decide)
  exact ⟨h.1, h.2.2.2 (by decide)⟩
